import Mathlib

/-!
Verification of the simulation engine of `src/game-of-life.js`.

The JavaScript program keeps two global array-of-array grids, `grid` and
`tempGrid`.  All mutable array state is modelled by an explicit heap
(`St.heap`, a list of 2-D grids indexed by allocation order) together with the
two references `gRef` (the global `grid`) and `tempRef` (the global
`tempGrid`).  This makes reference aliasing — in particular the effect of the
assignment `grid = tempGrid` at line 94 — an observable part of the model.

Numbers that JavaScript handles as floats (`width / size`, the live-fraction
test against `0.10`, frame timestamps) are modelled as exact rationals; every
concrete input used below keeps those quantities far from rounding ties, so
IEEE-754 doubles and rationals agree on all evaluated comparisons.

Randomness (`Math.random() > 0.5` per cell in `populateGrid`) is modelled by
an oracle `Rnd : ℕ → ℕ → Bool` giving the outcome for each cell, and a list
of such oracles supplies the successive `populateGrid` calls of a run.
-/

namespace GameOfLife

/- The arithmetic of `ℚ` in current core is marked irreducible for the
elaborator; the kernel ignores reducibility, and making it semireducible for
this file lets `decide` evaluate the model on concrete inputs. -/
attribute [local semireducible] Rat.mul Rat.add Rat.sub Rat.inv

/-- A JavaScript value read out of a grid: either a number or `undefined`. -/
inductive JsVal where
  | undef : JsVal
  | num : ℕ → JsVal
deriving DecidableEq

/-- JavaScript truthiness of a grid read: `undefined` and `0` are falsy. -/
def JsVal.truthy : JsVal → Bool
  | .undef => false
  | .num n => n != 0

/-- A grid is an array of columns, `grid[x][y]`, exactly as in the source. -/
abbrev Grid := List (List ℕ)

/-- JavaScript array indexing `l[i]`: `undefined` (here `none`) when the index
is negative or past the end. -/
def jsIndex {α : Type} (l : List α) (i : ℤ) : Option α :=
  if i < 0 then none else l[i.toNat]?

/-- Lines 39-45, `cellValue(x, y)`: `try { return grid[x][y] } catch { return 0 }`.
When `x` is outside the column range, `grid[x]` is `undefined` and
`undefined[y]` throws, so the catch returns the number 0.  When `x` is in
range but `y` is not, `grid[x][y]` is `undefined` and is returned as such
(no exception). -/
def cellValue (g : Grid) (x y : ℤ) : JsVal :=
  match jsIndex g x with
  | none => JsVal.num 0
  | some col =>
    match jsIndex col y with
    | none => JsVal.undef
    | some v => JsVal.num v

/-- Lines 47-64, `countNeighbours(x, y)`: one `count++` per truthy read of the
eight neighbours, in source order. -/
def countNeighbours (g : Grid) (x y : ℤ) : ℕ :=
  (if (cellValue g (x - 1) (y - 1)).truthy then 1 else 0) +
  (if (cellValue g (x - 1) y).truthy then 1 else 0) +
  (if (cellValue g (x - 1) (y + 1)).truthy then 1 else 0) +
  (if (cellValue g x (y - 1)).truthy then 1 else 0) +
  (if (cellValue g x (y + 1)).truthy then 1 else 0) +
  (if (cellValue g (x + 1) (y - 1)).truthy then 1 else 0) +
  (if (cellValue g (x + 1) y).truthy then 1 else 0) +
  (if (cellValue g (x + 1) (y + 1)).truthy then 1 else 0)

/-- In-range read `grid[x][y]` as a number (`updateCell` and `drawCells` only
read coordinates inside the populated bounds, where the entry is a number). -/
def cellAt (g : Grid) (x y : ℕ) : ℕ := (g.getD x []).getD y 0

/-- The per-cell rule of lines 73-76, as a function of the current state and
the neighbour count (the spec's §4.3 `transition`). -/
def transition (state n : ℕ) : ℕ :=
  if 3 < n ∨ n < 2 then 0
  else if state = 0 ∧ n = 3 then 1
  else state

/-- Lines 67-77, `updateCell(x, y)`: count the neighbours of `(x, y)` in `g`
and apply the rule to `grid[x][y]`. -/
def updateCell (g : Grid) (x y : ℕ) : ℕ :=
  let neighbours := countNeighbours g (x : ℤ) (y : ℤ)
  if 3 < neighbours ∨ neighbours < 2 then 0
  else if cellAt g x y = 0 ∧ neighbours = 3 then 1
  else cellAt g x y

/-- Number of iterations of a JavaScript loop `for (let x = 0; x < b; x++)`
with a (possibly fractional) bound `b`: the count of naturals below `b`. -/
def loopCount (b : ℚ) : ℕ := (Int.ceil b).toNat

/-- The loop bound `width / size` of lines 87, 143, 176, 182: number of
columns actually iterated. -/
def cols (width size : ℕ) : ℕ := loopCount ((width : ℚ) / (size : ℚ))

/-- The loop bound `height / size`: number of rows actually iterated. -/
def rows (height size : ℕ) : ℕ := loopCount ((height : ℚ) / (size : ℚ))

/-- The coordinates `(x, y)` visited by the nested loops, in source order
(`x` outer, `y` inner). -/
def coords (width height size : ℕ) : List (ℕ × ℕ) :=
  (List.range (cols width size)).flatMap
    (fun x => (List.range (rows height size)).map (fun y => (x, y)))

/-- Lines 161-172, `initArray(w, h)`: a fresh grid of zeros, one column per
`x < w`, one zero per `y < h` (the arguments are the fractional quotients
`width / size`, `height / size`). -/
def initArray (w h : ℚ) : Grid :=
  (List.range (loopCount w)).map
    (fun _ => (List.range (loopCount h)).map (fun _ => (0 : ℕ)))

/-- The all-zero grid allocated by `initArray(width / size, height / size)`. -/
def zeroGrid (width height size : ℕ) : Grid :=
  initArray ((width : ℚ) / (size : ℚ)) ((height : ℚ) / (size : ℚ))

/-- Program state: the heap of allocated arrays (in allocation order) and the
references held by the globals `grid` and `tempGrid`. -/
structure St where
  heap : List Grid
  gRef : ℕ
  tempRef : ℕ
deriving DecidableEq

/-- Contents of the array with allocation index `i`. -/
def heapAt (st : St) (i : ℕ) : Grid := st.heap.getD i []

/-- State at lines 31-34: `grid = []` and `tempGrid = []`, two distinct empty
arrays. -/
def startState : St := { heap := [[], []], gRef := 0, tempRef := 1 }

/-- Write `g[x][y] = v` on a single array value. -/
def set2 (g : Grid) (x y v : ℕ) : Grid := g.set x ((g.getD x []).set y v)

/-- The statement `tempGrid[x][y] = v` (line 89): mutates the array that
`tempGrid` currently references. -/
def writeTemp (st : St) (x y v : ℕ) : St :=
  { st with heap := st.heap.set st.tempRef (set2 (heapAt st st.tempRef) x y v) }

/-- The statement `grid[x][y] = v` (line 186): mutates the array that `grid`
currently references. -/
def writeGrid (st : St) (x y v : ℕ) : St :=
  { st with heap := st.heap.set st.gRef (set2 (heapAt st st.gRef) x y v) }

/-- Lines 87-91 of `update()`: for every loop coordinate, in order, evaluate
`updateCell(x, y)` against the array `grid` references *at that moment* and
store the result through the `tempGrid` reference.  When the two references
alias (which holds from the second `update()` on), the loop reads its own
earlier writes. -/
def updateLoop (width height size : ℕ) (st : St) : St :=
  (coords width height size).foldl
    (fun s p => writeTemp s p.1 p.2 (updateCell (heapAt s s.gRef) p.1 p.2)) st

/-- Line 94, `grid = tempGrid`: the reference assignment. -/
def updateAssign (st : St) : St := { st with gRef := st.tempRef }

/-- Lines 87-94 of `update()`: the grid-transforming part of one step. -/
def stepState (width height size : ℕ) (st : St) : St :=
  updateAssign (updateLoop width height size st)

/-- Lines 140-157, `drawCells()`: count the truthy cells of `grid` over the
loop range. -/
def liveCount (width height size : ℕ) (g : Grid) : ℕ :=
  ((coords width height size).filter (fun p => cellAt g p.1 p.2 != 0)).length

/-- Line 100: the reseed test
`(cnt / ((width / size) * (height / size))) < 0.10`, with the two divisions
and the product taken exactly as written (floating-point reads modelled as
exact rationals). -/
def reseedCondition (width height size cnt : ℕ) : Prop :=
  (cnt : ℚ) / (((width : ℚ) / (size : ℚ)) * ((height : ℚ) / (size : ℚ))) < 1 / 10

instance (width height size cnt : ℕ) : Decidable (reseedCondition width height size cnt) := by
  unfold reseedCondition
  infer_instance

/-- Per-cell outcomes of `Math.random() > 0.5` for one `populateGrid` call. -/
abbrev Rnd := ℕ → ℕ → Bool

/-- Lines 182-189: the seeding loop of `populateGrid`, writing `1` through the
`grid` reference wherever the random draw succeeded. -/
def seedLoop (width height size : ℕ) (r : Rnd) (st : St) : St :=
  (coords width height size).foldl
    (fun s p => if r p.1 p.2 then writeGrid s p.1 p.2 1 else s) st

/-- Lines 176-177 of `populateGrid()`: `grid = initArray(...)` then
`tempGrid = initArray(...)` — two fresh all-zero arrays are allocated and the
two globals are pointed at them. -/
def populatedRaw (width height size : ℕ) (st : St) : St :=
  { heap := (st.heap ++ [zeroGrid width height size]) ++ [zeroGrid width height size],
    gRef := st.heap.length,
    tempRef := st.heap.length + 1 }

/-- Lines 175-189 of `populateGrid()` up to (not including) its final call to
`update()`: allocate a fresh zero grid for `grid`, another for `tempGrid`,
then run the seeding loop on `grid`. -/
def populateState (width height size : ℕ) (st : St) (r : Rnd) : St :=
  seedLoop width height size r (populatedRaw width height size st)

/-- Lines 79-109, `update()`, including the population monitor and the
recursive `populateGrid(); return;` of lines 100-103.  Each reseed consumes
one oracle from `seeds`; the result is `none` if the run needs more reseeds
than `seeds` provides, otherwise the final state and the number of
step-plus-monitor cycles executed. -/
def updateRun (width height size : ℕ) : St → List Rnd → Option (St × ℕ)
  | st, [] =>
    if reseedCondition width height size
        (liveCount width height size
          (heapAt (stepState width height size st) (stepState width height size st).gRef)) then
      none
    else some (stepState width height size st, 1)
  | st, r :: rest =>
    if reseedCondition width height size
        (liveCount width height size
          (heapAt (stepState width height size st) (stepState width height size st).gRef)) then
      (updateRun width height size
          (populateState width height size (stepState width height size st) r) rest).map
        (fun p => (p.1, p.2 + 1))
    else some (stepState width height size st, 1)

/-- Line 114: `stepInMs = 500`. -/
def stepInMs : ℚ := 500

/-- Lines 117-133, `start(timestamp)`: one frame callback of the pacing loop.
The input is the stored `startTime` (`none` models the initial `null`), the
simulation state, the frame timestamp and the reseed oracles; the output is
the new `(startTime, state)` pair and the number of step-plus-monitor cycles
run during this callback.  The trailing `requestAnimationFrame(start)` is
unconditional in the source; iterating this function models it. -/
def startCb (width height size : ℕ) (startTime : Option ℚ) (st : St) (t : ℚ)
    (seeds : List Rnd) : Option ((Option ℚ × St) × ℕ) :=
  match startTime with
  | none =>
    if t - t > stepInMs then
      (updateRun width height size st seeds).map (fun p => ((some t, p.1), p.2))
    else some ((some t, st), 0)
  | some v =>
    if t - v > stepInMs then
      (updateRun width height size st seeds).map (fun p => ((some t, p.1), p.2))
    else some ((some v, st), 0)

/-- A grid all of whose entries are dead. -/
def allZero (g : Grid) : Prop := ∀ col ∈ g, ∀ v ∈ col, v = 0

instance (g : Grid) : Decidable (allZero g) := by
  unfold allZero
  infer_instance

/-- Modelled from the spec claim C4: the state of the offset cell, with every
offset outside `[0,W) × [0,H)` contributing exactly 0. -/
def clampedCell (g : Grid) (W H : ℕ) (u v : ℤ) : ℕ :=
  if 0 ≤ u ∧ u < (W : ℤ) ∧ 0 ≤ v ∧ v < (H : ℤ) then cellAt g u.toNat v.toNat else 0

/-! Concrete runs used below.  The surface sizes keep the grids small:
`width = height = 20, size = 4` gives a 5×5 grid, `12/4` a 3×3 grid,
`8/4` a 2×2 grid, and `42/4` an 11×11 grid (`42 / 4 = 10.5`, so the loops
run 11 iterations per axis). -/

/-- Oracle seeding a vertical blinker at column 2, rows 1-3. -/
def blinkerRnd : Rnd := fun x y => x == 2 && (y == 1 || y == 2 || y == 3)

/-- Oracle seeding the main diagonal. -/
def diagRnd : Rnd := fun x y => x == y

/-- Oracle seeding every cell alive. -/
def allRnd : Rnd := fun _ _ => true

/-- Oracle seeding every cell dead. -/
def deadRnd : Rnd := fun _ _ => false

/-- Oracle seeding two disjoint boat still lifes (10 live cells). -/
def boatsRnd : Rnd := fun x y =>
  (x == 1 && y == 1) || (x == 2 && y == 1) || (x == 1 && y == 2) || (x == 3 && y == 2) ||
  (x == 2 && y == 3) ||
  (x == 6 && y == 6) || (x == 7 && y == 6) || (x == 6 && y == 7) || (x == 8 && y == 7) ||
  (x == 7 && y == 8)

/-- Oracle seeding three disjoint 2×2 block still lifes (12 live cells). -/
def blocksRnd : Rnd := fun x y =>
  ((x == 1 || x == 2) && (y == 1 || y == 2)) ||
  ((x == 5 || x == 6) && (y == 5 || y == 6)) ||
  ((x == 8 || x == 9) && (y == 8 || y == 9))

/-- State after `populateGrid`'s allocation and seeding with the blinker, on
the 5×5 grid (before the `update()` call at line 193). -/
def blinkerPop : St := populateState 20 20 4 startState blinkerRnd

/-- State after the first `update()` of the blinker run: the first update is
genuinely double-buffered, so this grid is the synchronous image (a horizontal
blinker), but `grid` and `tempGrid` now alias one array. -/
def blinkerStep1 : St := stepState 20 20 4 blinkerPop

/-- State after `populateGrid` and one `update()` with the diagonal seed on
the 3×3 grid: exactly one live cell (the centre) remains. -/
def singleCell : St := stepState 12 12 4 (populateState 12 12 4 startState diagRnd)

/-- State reached from `singleCell` by one collapsing update followed by a
reseed with `allRnd` and the reseed's own update (the four corners survive). -/
def afterReseed : St :=
  stepState 12 12 4 (populateState 12 12 4 (stepState 12 12 4 singleCell) allRnd)

/-- State after `populateGrid` with the boats seed and one `update()`. -/
def boatsStep1 : St := stepState 42 42 4 (populateState 42 42 4 startState boatsRnd)

/-- State after `populateGrid` with the blocks seed and one `update()`. -/
def blocksStep1 : St := stepState 42 42 4 (populateState 42 42 4 startState blocksRnd)

/-- State after `populateGrid` with the all-dead seed on the 2×2 grid. -/
def deadPop : St := populateState 8 8 4 startState deadRnd

/-- State after `populateGrid` with the all-alive seed on the 2×2 grid (a
stable block). -/
def blockPop : St := populateState 8 8 4 startState allRnd

/-! Helper lemmas. -/

lemma lt_loopCount {x : ℕ} {b : ℚ} : x < loopCount b ↔ (x : ℚ) < b := by
  unfold loopCount
  rw [Int.lt_toNat, Int.lt_ceil]
  simp

lemma ite_truthy_le_one (v : JsVal) : (if v.truthy then 1 else 0) ≤ 1 := by
  split <;> omega

lemma countNeighbours_le_eight (g : Grid) (x y : ℤ) : countNeighbours g x y ≤ 8 := by
  unfold countNeighbours
  have h1 := ite_truthy_le_one (cellValue g (x - 1) (y - 1))
  have h2 := ite_truthy_le_one (cellValue g (x - 1) y)
  have h3 := ite_truthy_le_one (cellValue g (x - 1) (y + 1))
  have h4 := ite_truthy_le_one (cellValue g x (y - 1))
  have h5 := ite_truthy_le_one (cellValue g x (y + 1))
  have h6 := ite_truthy_le_one (cellValue g (x + 1) (y - 1))
  have h7 := ite_truthy_le_one (cellValue g (x + 1) y)
  have h8 := ite_truthy_le_one (cellValue g (x + 1) (y + 1))
  omega

lemma jsIndex_none_iff {α : Type} {l : List α} {i : ℤ} :
    jsIndex l i = none ↔ i < 0 ∨ (l.length : ℤ) ≤ i := by
  unfold jsIndex
  split
  · simp
    omega
  · rename_i hi
    constructor
    · intro hnone
      by_contra hcon
      push_neg at hcon
      obtain ⟨-, hlen⟩ := hcon
      have hlt : i.toNat < l.length := by omega
      rw [(List.getElem?_eq_some).mpr ⟨hlt, rfl⟩] at hnone
      exact Option.noConfusion hnone
    · intro hor
      have hlen : l.length ≤ i.toNat := by omega
      exact List.getElem?_eq_none hlen

lemma jsIndex_eq_getElem {α : Type} {l : List α} {i : ℤ} (h0 : 0 ≤ i)
    (hlt : i.toNat < l.length) : jsIndex l i = some l[i.toNat] := by
  unfold jsIndex
  rw [if_neg (by omega)]
  exact (List.getElem?_eq_some).mpr ⟨hlt, rfl⟩

lemma mem_of_jsIndex {α : Type} {l : List α} {i : ℤ} {a : α}
    (h : jsIndex l i = some a) : a ∈ l := by
  unfold jsIndex at h
  split at h
  · exact Option.noConfusion h
  · obtain ⟨hlt, heq⟩ := (List.getElem?_eq_some).mp h
    exact heq ▸ l.getElem_mem hlt

lemma cellValue_of_none {g : Grid} {x y : ℤ} (h : jsIndex g x = none) :
    cellValue g x y = JsVal.num 0 := by
  unfold cellValue
  rw [h]

lemma cellValue_of_some_none {g : Grid} {x y : ℤ} {col : List ℕ}
    (h1 : jsIndex g x = some col) (h2 : jsIndex col y = none) :
    cellValue g x y = JsVal.undef := by
  unfold cellValue
  rw [h1]
  dsimp only
  rw [h2]

lemma cellValue_of_some_some {g : Grid} {x y : ℤ} {col : List ℕ} {v : ℕ}
    (h1 : jsIndex g x = some col) (h2 : jsIndex col y = some v) :
    cellValue g x y = JsVal.num v := by
  unfold cellValue
  rw [h1]
  dsimp only
  rw [h2]

lemma truthy_ite_eq_clampedCell (g : Grid) (W H : ℕ)
    (hlen : g.length = W)
    (hcols : ∀ col ∈ g, col.length = H)
    (hbits : ∀ col ∈ g, ∀ c ∈ col, c ≤ 1) (u v : ℤ) :
    (if (cellValue g u v).truthy then 1 else 0) = clampedCell g W H u v := by
  by_cases hin : 0 ≤ u ∧ u < (W : ℤ) ∧ 0 ≤ v ∧ v < (H : ℤ)
  · obtain ⟨hu0, huW, hv0, hvH⟩ := hin
    have hulen : u.toNat < g.length := by omega
    have hju := jsIndex_eq_getElem hu0 hulen
    have hcolmem : g[u.toNat] ∈ g := g.getElem_mem hulen
    have hvlen : v.toNat < (g[u.toNat]).length := by
      rw [hcols _ hcolmem]
      omega
    have hjv := jsIndex_eq_getElem hv0 hvlen
    have hcv : cellValue g u v = JsVal.num ((g[u.toNat])[v.toNat]) :=
      cellValue_of_some_some hju hjv
    have hca : cellAt g u.toNat v.toNat = (g[u.toNat])[v.toNat] := by
      unfold cellAt
      rw [List.getD_eq_getElem?_getD (g.getD u.toNat []), List.getD_eq_getElem?_getD g,
        List.getElem?_eq_getElem hulen, Option.getD_some,
        List.getElem?_eq_getElem hvlen, Option.getD_some]
    have hent : (g[u.toNat])[v.toNat] ≤ 1 :=
      hbits _ hcolmem _ ((g[u.toNat]).getElem_mem hvlen)
    have hcond : 0 ≤ u ∧ u < (W : ℤ) ∧ 0 ≤ v ∧ v < (H : ℤ) := ⟨hu0, huW, hv0, hvH⟩
    unfold clampedCell
    rw [hcv, if_pos hcond, hca]
    by_cases he : (g[u.toNat])[v.toNat] = 0
    · simp [JsVal.truthy, he]
    · have h1 : (g[u.toNat])[v.toNat] = 1 := by omega
      simp [JsVal.truthy, h1]
  · unfold clampedCell
    rw [if_neg hin]
    by_cases hu : 0 ≤ u ∧ u < (W : ℤ)
    · obtain ⟨hu0, huW⟩ := hu
      have hulen : u.toNat < g.length := by omega
      have hju := jsIndex_eq_getElem hu0 hulen
      have hcolmem : g[u.toNat] ∈ g := g.getElem_mem hulen
      have hjv : jsIndex g[u.toNat] v = none := by
        rw [jsIndex_none_iff, hcols _ hcolmem]
        omega
      have hcv : cellValue g u v = JsVal.undef := cellValue_of_some_none hju hjv
      simp [hcv, JsVal.truthy]
    · have hju : jsIndex g u = none := by
        rw [jsIndex_none_iff]
        omega
      have hcv : cellValue g u v = JsVal.num 0 := cellValue_of_none hju
      simp [hcv, JsVal.truthy]

lemma cellValue_allZero {g : Grid} (hg : allZero g) (x y : ℤ) :
    (cellValue g x y).truthy = false := by
  cases hju : jsIndex g x with
  | none => rw [cellValue_of_none hju]; rfl
  | some col =>
    cases hjv : jsIndex col y with
    | none => rw [cellValue_of_some_none hju hjv]; rfl
    | some v =>
      have hv : v = 0 := hg col (mem_of_jsIndex hju) v (mem_of_jsIndex hjv)
      rw [cellValue_of_some_some hju hjv, hv]
      rfl

lemma countNeighbours_allZero {g : Grid} (hg : allZero g) (x y : ℤ) :
    countNeighbours g x y = 0 := by
  unfold countNeighbours
  simp [cellValue_allZero hg]

lemma updateCell_allZero {g : Grid} (hg : allZero g) (x y : ℕ) :
    updateCell g x y = 0 := by
  unfold updateCell
  rw [countNeighbours_allZero hg]
  norm_num

lemma allZero_getD (g : Grid) (hg : allZero g) (x : ℕ) (v : ℕ)
    (hv : v ∈ g.getD x []) : v = 0 := by
  rw [List.getD_eq_getElem?_getD] at hv
  cases hx : g[x]? with
  | none => rw [hx] at hv; simp at hv
  | some col =>
    rw [hx] at hv
    exact hg col (mem_of_jsIndex (l := g) (i := (x : ℤ)) (by
      unfold jsIndex
      rw [if_neg (by omega)]
      simpa using hx)) v hv

lemma allZero_set2 {g : Grid} (hg : allZero g) (x y : ℕ) :
    allZero (set2 g x y 0) := by
  intro col hcol v hv
  rcases List.mem_or_eq_of_mem_set hcol with h | h
  · exact hg col h v hv
  · subst h
    rcases List.mem_or_eq_of_mem_set hv with h2 | h2
    · exact allZero_getD g hg x v h2
    · exact h2

lemma foldl_induction {α : Type} (P : St → Prop) (f : St → α → St)
    (hf : ∀ s a, P s → P (f s a)) (l : List α) :
    ∀ st, P st → P (l.foldl f st) := by
  induction l with
  | nil => intro st hst; exact hst
  | cons a l ih =>
    intro st hst
    exact ih (f st a) (hf st a hst)

lemma getD_set_self (l : List Grid) (i : ℕ) (g : Grid) (h : i < l.length) :
    (l.set i g).getD i [] = g := by
  rw [List.getD_eq_getElem?_getD, List.getElem?_set_self h, Option.getD_some]

lemma getD_set_ne (l : List Grid) {i j : ℕ} (g : Grid) (h : i ≠ j) :
    (l.set i g).getD j [] = l.getD j [] := by
  rw [List.getD_eq_getElem?_getD, List.getElem?_set_ne h, ← List.getD_eq_getElem?_getD]

lemma writeTemp_allZero {st : St} (x y : ℕ)
    (hg : allZero (heapAt st st.gRef)) (ht : allZero (heapAt st st.tempRef)) :
    allZero (heapAt (writeTemp st x y 0) st.gRef) ∧
    allZero (heapAt (writeTemp st x y 0) st.tempRef) := by
  unfold writeTemp heapAt
  rcases Nat.lt_or_ge st.tempRef st.heap.length with hlt | hge
  · constructor
    · by_cases hgt : st.gRef = st.tempRef
      · rw [hgt, getD_set_self _ _ _ hlt]
        exact allZero_set2 ht x y
      · rw [getD_set_ne _ _ (fun hc => hgt hc.symm)]
        exact hg
    · rw [getD_set_self _ _ _ hlt]
      exact allZero_set2 ht x y
  · rw [List.set_eq_of_length_le hge]
    exact ⟨hg, ht⟩

lemma stepState_allZero (w h s : ℕ) (st : St)
    (hg : allZero (heapAt st st.gRef)) (ht : allZero (heapAt st st.tempRef)) :
    allZero (heapAt (stepState w h s st) (stepState w h s st).gRef) ∧
    allZero (heapAt (stepState w h s st) (stepState w h s st).tempRef) := by
  have hloop :
      allZero (heapAt (updateLoop w h s st) (updateLoop w h s st).gRef) ∧
      allZero (heapAt (updateLoop w h s st) (updateLoop w h s st).tempRef) := by
    unfold updateLoop
    refine foldl_induction
      (fun s2 => allZero (heapAt s2 s2.gRef) ∧ allZero (heapAt s2 s2.tempRef))
      _ ?_ (coords w h s) st ⟨hg, ht⟩
    intro s2 p hs2
    have hz : updateCell (heapAt s2 s2.gRef) p.1 p.2 = 0 := updateCell_allZero hs2.1 p.1 p.2
    rw [hz]
    exact writeTemp_allZero p.1 p.2 hs2.1 hs2.2
  unfold stepState updateAssign
  exact ⟨hloop.2, hloop.2⟩

lemma seedLoop_refs (w h s : ℕ) (r : Rnd) (st : St) :
    (seedLoop w h s r st).gRef = st.gRef ∧
    (seedLoop w h s r st).tempRef = st.tempRef ∧
    ∀ i, i ≠ st.gRef → heapAt (seedLoop w h s r st) i = heapAt st i := by
  unfold seedLoop
  refine foldl_induction
    (fun s2 => s2.gRef = st.gRef ∧ s2.tempRef = st.tempRef ∧
      ∀ i, i ≠ st.gRef → heapAt s2 i = heapAt st i)
    _ ?_ (coords w h s) st ⟨rfl, rfl, fun _ _ => rfl⟩
  intro s2 p hs2
  obtain ⟨hgr, htr, hheap⟩ := hs2
  split
  · refine ⟨hgr, htr, fun i hi => ?_⟩
    unfold writeGrid heapAt
    rw [getD_set_ne _ _ (by rw [hgr]; exact fun hc => hi hc.symm)]
    exact hheap i hi
  · exact ⟨hgr, htr, hheap⟩

lemma updateRun_one_le (w h s : ℕ) (seeds : List Rnd) (st stf : St) (k : ℕ)
    (hrun : updateRun w h s st seeds = some (stf, k)) : 1 ≤ k := by
  cases seeds with
  | nil =>
    unfold updateRun at hrun
    split at hrun
    · exact Option.noConfusion hrun
    · obtain ⟨-, hk⟩ := Prod.mk.injEq .. ▸ Option.some.injEq .. ▸ hrun
      omega
  | cons r rest =>
    unfold updateRun at hrun
    split at hrun
    · obtain ⟨p, -, heq⟩ := Option.map_eq_some'.mp hrun
      have hk : p.2 + 1 = k := congrArg Prod.snd heq
      omega
    · obtain ⟨-, hk⟩ := Prod.mk.injEq .. ▸ Option.some.injEq .. ▸ hrun
      omega

lemma updateRun_reseed_two_le (w h s : ℕ) (seeds : List Rnd) (st stf : St) (k : ℕ)
    (hrun : updateRun w h s st seeds = some (stf, k))
    (hcol : reseedCondition w h s
      (liveCount w h s (heapAt (stepState w h s st) (stepState w h s st).gRef))) :
    2 ≤ k := by
  cases seeds with
  | nil =>
    unfold updateRun at hrun
    rw [if_pos hcol] at hrun
    exact Option.noConfusion hrun
  | cons r rest =>
    unfold updateRun at hrun
    rw [if_pos hcol] at hrun
    obtain ⟨p, hp, heq⟩ := Option.map_eq_some'.mp hrun
    have hk : p.2 + 1 = k := congrArg Prod.snd heq
    have h1 : 1 ≤ p.2 :=
      updateRun_one_le w h s rest _ p.1 p.2 (by rw [hp])
    omega

lemma cols_mem_iff (w s : ℕ) (hs : 0 < s) (x : ℕ) :
    x < cols w s ↔ x * s < w := by
  rw [cols, lt_loopCount]
  have hs0 : (0 : ℚ) < (s : ℚ) := by exact_mod_cast hs
  rw [lt_div_iff₀ hs0]
  constructor <;> intro hx <;> exact_mod_cast hx

lemma cols_eq_ceilDiv (w s : ℕ) (hs : 0 < s) : cols w s = (w + s - 1) / s := by
  have key2 : ∀ x : ℕ, x < (w + s - 1) / s ↔ x * s < w := by
    intro x
    rw [Nat.lt_iff_add_one_le, Nat.le_div_iff_mul_le hs, add_mul, one_mul]
    have hgen : ∀ a : ℕ, a + s ≤ w + s - 1 ↔ a < w := by
      intro a
      omega
    exact hgen (x * s)
  have h1 : ∀ x : ℕ, x < cols w s ↔ x < (w + s - 1) / s := by
    intro x
    rw [cols_mem_iff w s hs, key2]
  have hle1 : cols w s ≤ (w + s - 1) / s := by
    by_contra hcon
    push_neg at hcon
    exact absurd ((h1 _).mp hcon) (lt_irrefl _)
  have hle2 : (w + s - 1) / s ≤ cols w s := by
    by_contra hcon
    push_neg at hcon
    exact absurd ((h1 _).mpr hcon) (lt_irrefl _)
  omega

/-! Claim theorems. -/

/-- C1: the claim that every step writes, at every in-range coordinate, the
value `transition(current[x][y], neighborCount(current, x, y))` computed from
the unmodified pre-step snapshot fails on the code.  After the first
`update()` the assignment `grid = tempGrid` leaves both globals referencing
one array (first conjunct), so the second update mutates the grid it is
reading: at cell `(2, 1)` of the blinker run it writes `0`, while the
pre-step snapshot value `updateCell` is `1`.  The last conjunct shows the
aliased state is reached from program start (the first update after
`populateGrid` triggers no reseed). -/
theorem C1_update_not_synchronous :
    blinkerStep1.gRef = blinkerStep1.tempRef
    ∧ cellAt (heapAt (updateLoop 20 20 4 blinkerStep1)
        (updateLoop 20 20 4 blinkerStep1).tempRef) 2 1 = 0
    ∧ updateCell (heapAt blinkerStep1 blinkerStep1.gRef) 2 1 = 1
    ∧ updateRun 20 20 4 blinkerPop [] = some (blinkerStep1, 1) := by
  decide

/-- C2: the claim that `grid` and `tempGrid` are distinct backing arrays at
every reachable state, with the old current buffer reused as the next step's
write buffer, fails on the code: right after `populateGrid` the references are
distinct (allocations 2 and 3), but after a single `update()` both globals
reference allocation 3, and allocation 2 is simply abandoned. -/
theorem C2_buffer_aliasing :
    deadPop.gRef = 2
    ∧ deadPop.tempRef = 3
    ∧ deadPop.gRef ≠ deadPop.tempRef
    ∧ (stepState 8 8 4 deadPop).gRef = (stepState 8 8 4 deadPop).tempRef
    ∧ (stepState 8 8 4 deadPop).tempRef = 3 := by
  decide

/-- C3: the per-cell transition returns 0 when the neighbour count is above 3
or below 2, returns 1 for a dead cell with exactly 3 neighbours, and returns
the state unchanged otherwise; `updateCell` is exactly this rule applied to
`grid[x][y]` and `countNeighbours(x, y)`. -/
theorem C3_transition_rule_table (state n : ℕ) :
    ((3 < n ∨ n < 2) → transition state n = 0)
    ∧ (state = 0 ∧ n = 3 → transition state n = 1)
    ∧ (2 ≤ n → n ≤ 3 → ¬(state = 0 ∧ n = 3) → transition state n = state)
    ∧ (∀ (g : Grid) (x y : ℕ),
        updateCell g x y = transition (cellAt g x y) (countNeighbours g (x : ℤ) (y : ℤ))) := by
  refine ⟨?_, ?_, ?_, fun g x y => rfl⟩
  · intro hd
    unfold transition
    rw [if_pos hd]
  · rintro ⟨h0, h3⟩
    unfold transition
    rw [if_neg (by omega), if_pos ⟨h0, h3⟩]
  · intro h2 h3 hnb
    unfold transition
    rw [if_neg (by omega), if_neg hnb]

/-- C3 witness: a live cell with two live neighbours survives. -/
theorem C3_witness : transition 1 2 = 1 :=
  (C3_transition_rule_table 1 2).2.2.1 (by decide) (by decide) (by decide)

/-- C4: for a well-formed `W × H` grid of 0/1 cells and any in-range
coordinate, `countNeighbours` equals the sum of the eight offset cells with
every out-of-range offset contributing exactly 0, and the result is at
most 8. -/
theorem C4_neighbour_sum (g : Grid) (W H : ℕ) (x y : ℕ)
    (hlen : g.length = W)
    (hcols : ∀ col ∈ g, col.length = H)
    (hbits : ∀ col ∈ g, ∀ c ∈ col, c ≤ 1)
    (_hx : x < W) (_hy : y < H) :
    countNeighbours g (x : ℤ) (y : ℤ) =
      clampedCell g W H ((x : ℤ) - 1) ((y : ℤ) - 1) +
      clampedCell g W H ((x : ℤ) - 1) (y : ℤ) +
      clampedCell g W H ((x : ℤ) - 1) ((y : ℤ) + 1) +
      clampedCell g W H (x : ℤ) ((y : ℤ) - 1) +
      clampedCell g W H (x : ℤ) ((y : ℤ) + 1) +
      clampedCell g W H ((x : ℤ) + 1) ((y : ℤ) - 1) +
      clampedCell g W H ((x : ℤ) + 1) (y : ℤ) +
      clampedCell g W H ((x : ℤ) + 1) ((y : ℤ) + 1)
    ∧ countNeighbours g (x : ℤ) (y : ℤ) ≤ 8 := by
  constructor
  · have hterm := truthy_ite_eq_clampedCell g W H hlen hcols hbits
    unfold countNeighbours
    rw [hterm, hterm, hterm, hterm, hterm, hterm, hterm, hterm]
  · exact countNeighbours_le_eight g _ _

/-- C4 witness: corner cell of a concrete 2×2 grid. -/
theorem C4_witness : countNeighbours [[1, 1], [1, 0]] 0 0 ≤ 8 :=
  (C4_neighbour_sum [[1, 1], [1, 0]] 2 2 0 0 rfl (by decide) (by decide)
    (by decide) (by decide)).2

/-- C5 (amended): after a step, the monitor reseeds iff
`liveCount / ((width / size) * (height / size)) < 0.10`, where the
denominator is the exact fractional product (surface area divided by the
squared cell size), not the integer grid cell count; when the condition
fails the stepped state is returned unchanged, and when it holds the run
continues into `populateGrid` with the next random oracle. -/
theorem C5_reseed_threshold (w h s : ℕ) (st : St) (seeds : List Rnd) :
    (¬ reseedCondition w h s
        (liveCount w h s (heapAt (stepState w h s st) (stepState w h s st).gRef)) →
      updateRun w h s st seeds = some (stepState w h s st, 1))
    ∧ (reseedCondition w h s
        (liveCount w h s (heapAt (stepState w h s st) (stepState w h s st).gRef)) →
      seeds = [] → updateRun w h s st seeds = none)
    ∧ (∀ r rest, reseedCondition w h s
        (liveCount w h s (heapAt (stepState w h s st) (stepState w h s st).gRef)) →
      seeds = r :: rest →
      updateRun w h s st seeds =
        (updateRun w h s (populateState w h s (stepState w h s st) r) rest).map
          (fun p => (p.1, p.2 + 1))) := by
  refine ⟨?_, ?_, ?_⟩
  · intro hno
    cases seeds with
    | nil =>
      conv_lhs => rw [updateRun]
      rw [if_neg hno]
    | cons r rest =>
      conv_lhs => rw [updateRun]
      rw [if_neg hno]
  · intro hyes hnil
    subst hnil
    conv_lhs => rw [updateRun]
    rw [if_pos hyes]
  · intro r rest hyes hcons
    subst hcons
    conv_lhs => rw [updateRun]
    rw [if_pos hyes]

set_option maxRecDepth 200000 in
/-- C5 counterexample: on a 42×42 surface with cell size 4 (an 11×11 grid,
since `42 / 4 = 10.5`), a post-step grid of two boat still lifes has 10 live
cells: the code reseeds (`10 / 110.25 < 0.10`) although `10 / (10 * 10)`
(the claim with `W = H = floor(42 / 4) = 10`) is not below `0.10`; and a
post-step grid of three blocks has 12 live cells: the code does not reseed
(`12 / 110.25 ≥ 0.10`) although `12 / (11 * 11)` (the claim with W, H read
as the actual grid dimensions) is below `0.10`. -/
theorem C5_counterexample :
    liveCount 42 42 4 (heapAt boatsStep1 boatsStep1.gRef) = 10
    ∧ reseedCondition 42 42 4 10
    ∧ ¬ ((10 : ℚ) / (((42 / 4 : ℕ) : ℚ) * ((42 / 4 : ℕ) : ℚ)) < 1 / 10)
    ∧ (updateRun 42 42 4 (populateState 42 42 4 startState boatsRnd) []).isNone = true
    ∧ liveCount 42 42 4 (heapAt blocksStep1 blocksStep1.gRef) = 12
    ∧ ¬ reseedCondition 42 42 4 12
    ∧ ((12 : ℚ) / ((cols 42 4 * rows 42 4 : ℕ) : ℚ) < 1 / 10)
    ∧ (updateRun 42 42 4 (populateState 42 42 4 startState blocksRnd) []).isSome = true := by
  decide

/-- C5 witness: a stable 2×2 block fills its whole 2×2 grid, the condition
fails, and the monitor leaves the stepped state untouched. -/
theorem C5_witness :
    updateRun 8 8 4 blockPop [] = some (stepState 8 8 4 blockPop, 1) :=
  (C5_reseed_threshold 8 8 4 blockPop []).1 (by decide)

/-- C6 (amended): the first frame callback only records the timestamp and
performs no step; a later callback with `t - lastStepTimestamp ≤ 500` performs
no step and keeps the stored timestamp; a later callback with
`t - lastStepTimestamp > 500` hands the state to `update()` exactly once and
stores `t` — that single `update()` performs at least one step-plus-monitor
cycle, and more than one exactly when a reseed fires (see the
counterexample).  Re-registration for the next frame is unconditional in the
source (line 132) and is modelled by iterating this callback. -/
theorem C6_pacing (w h s : ℕ) (st : St) (stT t : ℚ) (seeds : List Rnd) :
    (startCb w h s none st t seeds = some ((some t, st), 0))
    ∧ (¬ t - stT > stepInMs →
        startCb w h s (some stT) st t seeds = some ((some stT, st), 0))
    ∧ (t - stT > stepInMs →
        startCb w h s (some stT) st t seeds =
          (updateRun w h s st seeds).map (fun p => ((some t, p.1), p.2)))
    ∧ (∀ stf k, updateRun w h s st seeds = some (stf, k) → 1 ≤ k) := by
  refine ⟨?_, ?_, ?_, fun stf k hk => updateRun_one_le w h s seeds st stf k hk⟩
  · unfold startCb
    dsimp only
    rw [if_neg (by norm_num [stepInMs])]
  · intro hns
    unfold startCb
    dsimp only
    rw [if_neg hns]
  · intro hys
    unfold startCb
    dsimp only
    rw [if_pos hys]

/-- C6 counterexample: a qualifying callback (`501 - 0 > 500`) on the
single-cell state performs two step-plus-monitor cycles, not exactly one:
the step kills the last live cell, the monitor fires, and the reseed's own
`update()` runs a second cycle within the same frame callback.  The third
conjunct shows the single-cell state is reached from program start. -/
theorem C6_counterexample :
    (startCb 12 12 4 (some 0) singleCell 501 [allRnd]).map (fun p => p.2) = some 2
    ∧ ((501 : ℚ) - 0 > stepInMs)
    ∧ updateRun 12 12 4 (populateState 12 12 4 startState diagRnd) [] = some (singleCell, 1)
    ∧ liveCount 12 12 4 (heapAt singleCell singleCell.gRef) = 1 := by
  decide

/-- C6 witness: a callback 400 ms after the last step performs no step and
keeps the stored timestamp. -/
theorem C6_witness :
    startCb 12 12 4 (some 0) startState 400 [] = some ((some 0, startState), 0) :=
  (C6_pacing 12 12 4 startState 0 400 []).2.1 (by norm_num [stepInMs])

/-- C7 counterexample: for a surface of width 10 and cell size 4 the column
loops run 3 iterations (`x < 2.5` holds for `x = 2`), not
`floor(10 / 4) = 2` as the claim states. -/
theorem C7_counterexample :
    cols 10 4 = 3 ∧ (10 : ℕ) / 4 = 2 ∧ cols 10 4 ≠ 10 / 4 := by
  decide

/-- C7 (amended): the loop bound `x < width / size` admits exactly the
integers with `x * size < width`, i.e. `W = ceil(width / size)` (equal to
the claimed `floor(width / size)` only when `size` divides `width`); all
operations range over these same bounds: `initArray` builds exactly
`cols × rows` cells and the shared coordinate list `coords` (used by the
step loop, the cell counter and the seeding loop) is exactly the product
range. -/
theorem C7_loop_bounds (w h s : ℕ) (hs : 0 < s) :
    cols w s = (w + s - 1) / s
    ∧ rows h s = (h + s - 1) / s
    ∧ (∀ x : ℕ, x < cols w s ↔ x * s < w)
    ∧ (zeroGrid w h s).length = cols w s
    ∧ (∀ col ∈ zeroGrid w h s, col.length = rows h s)
    ∧ (∀ p : ℕ × ℕ, p ∈ coords w h s ↔ p.1 < cols w s ∧ p.2 < rows h s) := by
  refine ⟨cols_eq_ceilDiv w s hs, cols_eq_ceilDiv h s hs, cols_mem_iff w s hs, ?_, ?_, ?_⟩
  · simp [zeroGrid, initArray, cols]
  · intro col hcol
    simp only [zeroGrid, initArray, List.mem_map] at hcol
    obtain ⟨a, -, rfl⟩ := hcol
    simp [rows]
  · intro p
    obtain ⟨px, py⟩ := p
    simp [coords, List.mem_flatMap, List.mem_map, List.mem_range]

/-- C7 witness: the amended bound at width 10, cell size 4. -/
theorem C7_witness : cols 10 4 = (10 + 4 - 1) / 4 :=
  (C7_loop_bounds 10 6 4 (by decide)).1

/-- C8: if both referenced buffers are entirely dead, then after any number
of step operations the current grid is still entirely dead — no cell is ever
born without exactly three live neighbours. -/
theorem C8_dead_stays_dead (w h s n : ℕ) (st : St)
    (hg : allZero (heapAt st st.gRef)) (ht : allZero (heapAt st st.tempRef)) :
    allZero (heapAt ((stepState w h s)^[n] st) ((stepState w h s)^[n] st).gRef) := by
  have main : ∀ (m : ℕ) (st2 : St), allZero (heapAt st2 st2.gRef) →
      allZero (heapAt st2 st2.tempRef) →
      allZero (heapAt ((stepState w h s)^[m] st2) ((stepState w h s)^[m] st2).gRef) ∧
      allZero (heapAt ((stepState w h s)^[m] st2) ((stepState w h s)^[m] st2).tempRef) := by
    intro m
    induction m with
    | zero =>
      intro st2 h1 h2
      exact ⟨h1, h2⟩
    | succ m ih =>
      intro st2 h1 h2
      rw [Function.iterate_succ_apply]
      obtain ⟨hg2, ht2⟩ := stepState_allZero w h s st2 h1 h2
      exact ih (stepState w h s st2) hg2 ht2
  exact (main n st hg ht).1

/-- C8 witness: three steps from the freshly populated all-dead 2×2 grid. -/
theorem C8_witness :
    allZero (heapAt ((stepState 8 8 4)^[3] deadPop) ((stepState 8 8 4)^[3] deadPop).gRef) :=
  C8_dead_stays_dead 8 8 4 3 deadPop (by decide) (by decide)

/-- C9: for every grid and every pair of integers, `countNeighbours` is total
with value at most 8; a column index outside the array maps the swallowed
indexing fault to the number 0, and an in-range column with out-of-range row
yields `undefined`, which is treated as dead. -/
theorem C9_neighbour_reads_total (g : Grid) (x y : ℤ) :
    countNeighbours g x y ≤ 8
    ∧ ((x < 0 ∨ (g.length : ℤ) ≤ x) → cellValue g x y = JsVal.num 0)
    ∧ (∀ col, jsIndex g x = some col → (y < 0 ∨ (col.length : ℤ) ≤ y) →
        cellValue g x y = JsVal.undef ∧ (cellValue g x y).truthy = false) := by
  refine ⟨countNeighbours_le_eight g x y, ?_, ?_⟩
  · intro hx
    exact cellValue_of_none (jsIndex_none_iff.mpr hx)
  · intro col hcol hy
    have hund := cellValue_of_some_none hcol (jsIndex_none_iff.mpr hy)
    refine ⟨hund, ?_⟩
    rw [hund]
    rfl

/-- C9 witness: reads at negative coordinates on a 1×1 grid. -/
theorem C9_witness :
    countNeighbours [[1]] (-1) (-1) ≤ 8 ∧ cellValue [[1]] (-1) 0 = JsVal.num 0 :=
  ⟨(C9_neighbour_reads_total [[1]] (-1) (-1)).1,
   (C9_neighbour_reads_total [[1]] (-1) 0).2.1 (Or.inl (by decide))⟩

/-- C10: `populateGrid` allocates two fresh all-zero buffers (the next two
heap slots), randomizes only the grid buffer — the `tempGrid` buffer is still
the all-zero grid after seeding — and the run of an `update()` whose monitor
fires executes at least two step-plus-monitor cycles (the reseed immediately
invokes a further full `update()`, recursively so while the threshold
condition keeps holding). -/
theorem C10_reseed (w h s : ℕ) (st : St) (r : Rnd) (seeds : List Rnd) (stf : St) (k : ℕ)
    (hrun : updateRun w h s st seeds = some (stf, k))
    (hcol : reseedCondition w h s
      (liveCount w h s (heapAt (stepState w h s st) (stepState w h s st).gRef))) :
    (populateState w h s st r).gRef = st.heap.length
    ∧ (populateState w h s st r).tempRef = st.heap.length + 1
    ∧ (populateState w h s st r).gRef ≠ (populateState w h s st r).tempRef
    ∧ heapAt (populateState w h s st r) (st.heap.length + 1) = zeroGrid w h s
    ∧ 2 ≤ k := by
  obtain ⟨hgr, htr, hheap⟩ := seedLoop_refs w h s r (populatedRaw w h s st)
  have hraw_g : (populatedRaw w h s st).gRef = st.heap.length := rfl
  have hraw_t : (populatedRaw w h s st).tempRef = st.heap.length + 1 := rfl
  have hraw_heap : heapAt (populatedRaw w h s st) (st.heap.length + 1) = zeroGrid w h s := by
    unfold heapAt populatedRaw
    rw [List.getD_eq_getElem?_getD, List.getElem?_append_right (by simp)]
    simp
  refine ⟨?_, ?_, ?_, ?_, updateRun_reseed_two_le w h s seeds st stf k hrun hcol⟩
  · rw [populateState, hgr, hraw_g]
  · rw [populateState, htr, hraw_t]
  · rw [populateState, hgr, htr, hraw_g, hraw_t]
    omega
  · rw [populateState, hheap (st.heap.length + 1) (by rw [hraw_g]; omega), hraw_heap]

/-- C10 witness: the collapsing single-cell run with one reseed. -/
theorem C10_witness :
    (populateState 12 12 4 singleCell allRnd).gRef = singleCell.heap.length
    ∧ (populateState 12 12 4 singleCell allRnd).tempRef = singleCell.heap.length + 1
    ∧ (populateState 12 12 4 singleCell allRnd).gRef ≠
        (populateState 12 12 4 singleCell allRnd).tempRef
    ∧ heapAt (populateState 12 12 4 singleCell allRnd) (singleCell.heap.length + 1) =
        zeroGrid 12 12 4
    ∧ 2 ≤ 2 :=
  C10_reseed 12 12 4 singleCell allRnd [allRnd] afterReseed 2 (by decide) (by decide)

end GameOfLife
